import Mathlib

/-!
A shallow embedding of the availability / booking core of the
smartheaddemo repository (`app/models.py`, `app/repositories.py`,
`app/routes/booking.py`, `app/routes/availability.py`,
`app/utils/mock_data.py`), together with theorems settling the
specification claims about it.

Conventions of the embedding:
* timestamps are minutes (as integers); an appointment occupies the
  half-open interval `[date_time, date_time + duration_minutes)`;
* Python strings are Lean `String`s; slicing and upper-casing are done
  on the underlying character list;
* the nondeterministic inputs of the booking route
  (`random.choice([True, False])` and `random.randint(1000, 9999)`) and
  of the repository (`uuid.uuid4().hex`) are passed in explicitly;
* the relational store is an explicit value threaded through the
  operations; the booking route performs no store access in the source,
  which the embedding reflects by returning the store unchanged.
-/

namespace SmartHead

/-- Appointment status enum (`models.AppointmentStatusEnum`). -/
inductive AppointmentStatusEnum where
  | REQUESTED
  | CONFIRMED
  | CANCELED
  | COMPLETED
  | RESCHEDULED
deriving DecidableEq, Repr

/-- Python name lookup `AppointmentStatusEnum[name]`; a `KeyError` on an
unknown name is modelled as `none`. -/
def AppointmentStatusEnum.ofName : String → Option AppointmentStatusEnum
  | "REQUESTED" => some .REQUESTED
  | "CONFIRMED" => some .CONFIRMED
  | "CANCELED" => some .CANCELED
  | "COMPLETED" => some .COMPLETED
  | "RESCHEDULED" => some .RESCHEDULED
  | _ => none

/-- An `appointments` row (`models.Appointment`). -/
structure Appointment where
  id : Nat
  user_id : Nat
  family_member_id : Option Nat
  doctor_id : Nat
  location_id : Nat
  date_time : Int
  duration_minutes : Int
  reason : String
  status : AppointmentStatusEnum
  notes : Option String
  confirmation_id : String
deriving DecidableEq, Repr

/-- The `AppointmentCreate` Pydantic schema (`models.AppointmentCreate`);
`status` is a free-form string there, defaulting to `"REQUESTED"`. -/
structure AppointmentCreate where
  user_id : Nat
  family_member_id : Option Nat
  doctor_id : Nat
  location_id : Nat
  date_time : Int
  duration_minutes : Int
  reason : String
  status : String
  notes : Option String
  confirmation_id : Option String
deriving DecidableEq, Repr

/-- The appointment table together with the autoincrement counter. -/
structure Db where
  appointments : List Appointment
  next_id : Nat
deriving DecidableEq, Repr

/-- The empty store. -/
def emptyDb : Db := ⟨[], 1⟩

/-- Python truthiness of an optional string: `None` and `""` are falsy. -/
def strTruthy : Option String → Bool
  | none => false
  | some s => s != ""

/-- The confirmation-identifier generation of
`AppointmentRepository.create_appointment`:
`f"BK-{uuid.uuid4().hex[:5].upper()}"`, with the 32-character lowercase
uuid hex digest passed in explicitly. -/
def gen_confirmation_id (uuidHex : String) : String :=
  "BK-" ++ String.mk ((uuidHex.data.take 5).map Char.toUpper)

/-- `AppointmentRepository.create_appointment` (`repositories.py`):
generates a confirmation id when the supplied one is falsy, converts the
status string through the enum (an unknown status raises, modelled as
`none`, leaving the store unchanged), and unconditionally inserts the
row — there is no conflict check of any kind. -/
def create_appointment (data : AppointmentCreate) (uuidHex : String) (db : Db) :
    Option (Appointment × Db) :=
  let confirmation_id :=
    if strTruthy data.confirmation_id then data.confirmation_id.getD ""
    else gen_confirmation_id uuidHex
  match AppointmentStatusEnum.ofName data.status with
  | none => none
  | some st =>
    let appt : Appointment :=
      ⟨db.next_id, data.user_id, data.family_member_id, data.doctor_id,
       data.location_id, data.date_time, data.duration_minutes, data.reason,
       st, data.notes, confirmation_id⟩
    some (appt, ⟨db.appointments ++ [appt], db.next_id + 1⟩)

/-- First element of the list satisfying `p` replaced by `f` of it;
models an in-place update of the single ORM row fetched by
`get_appointment_by_id`. -/
def updateFirst (p : Appointment → Bool) (f : Appointment → Appointment) :
    List Appointment → List Appointment
  | [] => []
  | a :: rest => if p a then f a :: rest else a :: updateFirst p f rest

/-- `AppointmentRepository.get_appointment_by_id`: the first row with the
given primary key. -/
def get_appointment_by_id (db : Db) (appointment_id : Nat) : Option Appointment :=
  db.appointments.find? (fun a => a.id == appointment_id)

/-- The cancelled version of a row, as mutated by
`AppointmentRepository.cancel_appointment`: status becomes `CANCELED`
and, when a truthy cancellation reason is supplied, the reason line
`f"{appointment.notes or ''}\nCancellation reason: {cancel_reason}"` is
appended to `notes`; every other column is untouched. -/
def cancelRow (cancel_reason : Option String) (a : Appointment) : Appointment :=
  { a with
    status := .CANCELED
    notes :=
      if strTruthy cancel_reason then
        some ((a.notes.getD "") ++ "\nCancellation reason: " ++ cancel_reason.getD "")
      else a.notes }

/-- `AppointmentRepository.cancel_appointment` (`repositories.py`):
returns `none` and leaves the store unchanged when no row has the id;
otherwise mutates the fetched row as in `cancelRow`. -/
def cancel_appointment (appointment_id : Nat) (cancel_reason : Option String)
    (db : Db) : Option Appointment × Db :=
  match get_appointment_by_id db appointment_id with
  | none => (none, db)
  | some a =>
    (some (cancelRow cancel_reason a),
     ⟨updateFirst (fun b => b.id == appointment_id) (cancelRow cancel_reason)
        db.appointments, db.next_id⟩)

/-- Modelled from the spec: the `BookingData` Pydantic model imported by
`routes/booking.py` is not present under the provided sources; per spec
§4.2/§6 a booking request carries the doctor, the chosen slot start/end,
a reason and optional notes.  The booking route never inspects these
fields, only the presence of the object. -/
structure BookingData where
  doctor_id : Nat
  slot_start : Int
  slot_end : Int
  reason : String
  notes : Option String
deriving DecidableEq, Repr

/-- Modelled from the spec: the Redis-resident session value read by the
booking route through `r.get`; the route only reads its `"bookingData"`
entry. -/
structure RedisSession where
  bookingData : Option BookingData
deriving DecidableEq, Repr

/-- The three responses the `POST /book-appointment` handler can
produce: HTTP 400 `"No booking data"`, HTTP 409 `"Slot unavailable"`,
and the HTTP 200 confirmation message carrying the appointment id. -/
inductive BookResponse where
  | badRequest
  | conflict
  | confirmed (appointmentId : String)
deriving DecidableEq, Repr

/-- `book_appointment` (`routes/booking.py`): rejects with 400 when the
session is missing or carries no booking data; otherwise a simulated
random draw (`random.choice([True, False])`, passed in as `coin`)
decides between a 409 conflict and a confirmation whose id is
`f"APT-{random.randint(1000, 9999)}"` (the draw passed in as `n`).  The
handler touches no relational store; the store is threaded through
unchanged to make that explicit. -/
def book_appointment (session : Option RedisSession) (coin : Bool) (n : Nat)
    (db : Db) : BookResponse × Db :=
  match session with
  | none => (.badRequest, db)
  | some s =>
    match s.bookingData with
    | none => (.badRequest, db)
    | some _ =>
      if coin then (.conflict, db)
      else (.confirmed ("APT-" ++ toString n), db)

/-- Whether an optional session carries booking data, i.e. whether the
route proceeds past its 400 guard. -/
def hasBookingData : Option RedisSession → Bool
  | none => false
  | some s => s.bookingData.isSome

/-- The payload returned by `get_mock_availability`
(`utils/mock_data.py`). -/
structure MockAvailability where
  location : String
  specialty : String
  doctor : String
  slots : List String
deriving DecidableEq, Repr

/-- `get_mock_availability` (`utils/mock_data.py`): echoes the filters
(`doctor or "Any Available"`) and returns three hardcoded slot strings,
whatever the inputs. -/
def get_mock_availability (location specialty : String)
    (doctor : Option String) : MockAvailability :=
  ⟨location, specialty,
   if strTruthy doctor then doctor.getD "" else "Any Available",
   ["2025-04-23T10:00:00", "2025-04-23T10:30:00", "2025-04-23T11:00:00"]⟩

/-- The `GET /doctor-availability` handler (`routes/availability.py`):
it forwards its query parameters to `get_mock_availability`. -/
def doctor_availability (location specialty : String)
    (doctor : Option String) : MockAvailability :=
  get_mock_availability location specialty doctor

/-- Whether a status occupies its slot: the spec's overlap checks treat
`REQUESTED` and `CONFIRMED` as occupying and every other status as
free. -/
def occupying (a : Appointment) : Bool :=
  a.status == .REQUESTED || a.status == .CONFIRMED

/-- Open/open interval overlap test of spec §4.1:
`slot.start < existing.end AND slot.end > existing.start`. -/
def intervalsOverlap (s1 e1 s2 e2 : Int) : Bool :=
  decide (s1 < e2) && decide (s2 < e1)

/-- The spec's invariant on a store: for a given doctor, no two
occupying appointments have overlapping
`[date_time, date_time + duration_minutes)` intervals. -/
def ConflictFree (l : List Appointment) : Prop :=
  l.Pairwise (fun a b =>
    ¬(a.doctor_id = b.doctor_id ∧ occupying a = true ∧ occupying b = true ∧
      intervalsOverlap a.date_time (a.date_time + a.duration_minutes)
        b.date_time (b.date_time + b.duration_minutes) = true))

instance decConflictFree (l : List Appointment) : Decidable (ConflictFree l) := by
  unfold ConflictFree
  infer_instance

/-- Modelled from the spec: a `WeeklyAvailability` row of §3 (the
reference algorithm's input); day-of-week is 0–6 for Monday–Sunday,
start and end are minutes of the day. -/
structure WeeklyAvailability where
  day_of_week : Nat
  start_min : Nat
  end_min : Nat
  active : Bool
deriving DecidableEq, Repr

/-- Modelled from the spec: the slot-emission loop of §4.1 — starting at
`t`, emit consecutive non-overlapping 30-minute slots until the next
slot's end would exceed the window's end; the `fuel` argument only
bounds the recursion depth and is supplied generously by
`emitSlotStarts`. -/
def emitSlotStartsAux : Nat → Nat → Nat → List Nat
  | 0, _, _ => []
  | fuel + 1, t, window_end =>
    if t + 30 ≤ window_end then
      t :: emitSlotStartsAux fuel (t + 30) window_end
    else []

/-- Modelled from the spec: all 30-minute slot starts of a window, per
the §4.1 emission loop; a window of `window_end` minutes never holds
more than `window_end` slots, so that fuel is enough. -/
def emitSlotStarts (t window_end : Nat) : List Nat :=
  emitSlotStartsAux window_end t window_end

/-- Modelled from the spec: the reference Slot Generator of §4.1, over
dates given as day numbers (day-of-week = day number mod 7, with day 0 a
Monday), existing occupying appointments given as minute intervals, and
slots produced as absolute minute intervals (1440 minutes per day),
ordered by date then start time; a slot is discarded when it overlaps an
existing appointment under the open/open test. -/
def slotGeneratorSpec (dates : List Nat) (windows : List WeeklyAvailability)
    (existing : List (Int × Int)) : List (Int × Int) :=
  dates.flatMap fun d =>
    ((windows.filter fun w => w.active && w.day_of_week == d % 7).flatMap fun w =>
      (emitSlotStarts w.start_min w.end_min).map fun t =>
        ((d * 1440 + t : Int), (d * 1440 + t + 30 : Int))).filter fun s =>
      existing.all fun e => !intervalsOverlap s.1 s.2 e.1 e.2

/-- Sequential execution of a batch of booking-route invocations, one
per simulated draw pair `(coin, n)`, threading the store; since the
route touches no shared state, every interleaving of concurrent
invocations produces these same per-invocation responses. -/
def runBookings (session : Option RedisSession) (reqs : List (Bool × Nat))
    (db : Db) : List BookResponse × Db :=
  match reqs with
  | [] => ([], db)
  | (c, n) :: rest =>
    let r := book_appointment session c n db
    let rs := runBookings session rest r.2
    (r.1 :: rs.1, rs.2)

/-- The sixteen lowercase hexadecimal digits, the alphabet of
`uuid.uuid4().hex`. -/
def lowerHexChars : List Char := "0123456789abcdef".data

/-- The sixteen uppercase hexadecimal digits. -/
def upperHexChars : List Char := "0123456789ABCDEF".data

/-! Concrete fixtures used by counterexamples and witnesses. -/

/-- A fixed 32-character uuid hex digest. -/
def hexA : String := "0123456789abcdef0123456789abcdef"

/-- Another fixed 32-character uuid hex digest. -/
def hexB : String := "fedcba9876543210fedcba9876543210"

/-- A booking request for doctor 7, slot 09:00–09:30, status
`CONFIRMED`, no supplied confirmation id. -/
def reqConfirmed1 : AppointmentCreate :=
  ⟨1, none, 7, 1, 540, 30, "checkup", "CONFIRMED", none, none⟩

/-- A booking request for doctor 7, slot 09:15–09:45 (overlapping
`reqConfirmed1`), status `CONFIRMED`, no supplied confirmation id. -/
def reqConfirmed2 : AppointmentCreate :=
  ⟨2, none, 7, 1, 555, 30, "checkup", "CONFIRMED", none, none⟩

/-- A booking request carrying the Pydantic default status
`"REQUESTED"`. -/
def reqDefault : AppointmentCreate :=
  ⟨1, none, 7, 1, 540, 30, "checkup", "REQUESTED", none, none⟩

/-- The row `create_appointment` inserts for `reqDefault` with uuid hex
`hexA` on the empty store. -/
def reqDefaultRow : Appointment :=
  ⟨1, 1, none, 7, 1, 540, 30, "checkup", .REQUESTED, none, "BK-01234"⟩

/-- The store after inserting `reqDefaultRow`. -/
def reqDefaultDb : Db := ⟨[reqDefaultRow], 2⟩

/-- A booking request carrying a non-empty client-supplied confirmation
id. -/
def reqCustom : AppointmentCreate :=
  ⟨1, none, 7, 1, 540, 30, "checkup", "CONFIRMED", none, some "CUSTOM-99"⟩

/-- The row `create_appointment` inserts for `reqCustom` on the empty
store. -/
def reqCustomRow : Appointment :=
  ⟨1, 1, none, 7, 1, 540, 30, "checkup", .CONFIRMED, none, "CUSTOM-99"⟩

/-- The store after inserting `reqCustomRow`. -/
def reqCustomDb : Db := ⟨[reqCustomRow], 2⟩

/-- A session holding booking data for doctor 7, slot 09:00–09:30. -/
def sessionOK : RedisSession := ⟨some ⟨7, 540, 570, "checkup", none⟩⟩

/-- Booking data naming a doctor id (999) present in no store, with
`slot_end < slot_start` (an invalid interval). -/
def badBookingData : BookingData := ⟨999, 570, 540, "checkup", none⟩

/-- A store holding one `CONFIRMED` appointment of doctor 7 occupying
09:00–09:30. -/
def occupiedDb : Db :=
  ⟨[⟨1, 1, none, 7, 1, 540, 30, "checkup", .CONFIRMED, none, "BK-00001"⟩], 2⟩

/-- The store reached from the empty store by two consecutive
`create_appointment` calls for the same doctor with overlapping
`CONFIRMED` intervals. -/
def twoOverlapStore : Option Db :=
  (create_appointment reqConfirmed1 hexA emptyDb).bind fun p =>
    (create_appointment reqConfirmed2 hexB p.2).map fun q => q.2

/-- The concrete value of `twoOverlapStore`: both overlapping
`CONFIRMED` rows of doctor 7 are present. -/
def twoOverlapDb : Db :=
  ⟨[⟨1, 1, none, 7, 1, 540, 30, "checkup", .CONFIRMED, none, "BK-01234"⟩,
    ⟨2, 2, none, 7, 1, 555, 30, "checkup", .CONFIRMED, none, "BK-FEDCB"⟩], 3⟩

/-- The §8 scenario slots: one window Monday 09:00–10:00 (day 0,
minutes 540–600), no existing appointments, range the single Monday. -/
def mondayScenarioSlots : List (Int × Int) :=
  slotGeneratorSpec [0] [⟨0, 540, 600, true⟩] []

/-! Helper lemmas shared by the claim theorems. -/

/-- The booking-route handler never changes the store. -/
theorem book_db_unchanged (s : Option RedisSession) (c : Bool) (n : Nat)
    (db : Db) : (book_appointment s c n db).2 = db := by
  rcases s with _ | ⟨_ | bd⟩ <;> cases c <;> rfl

/-- The booking-route response does not depend on the store. -/
theorem book_resp_db_indep (s : Option RedisSession) (c : Bool) (n : Nat)
    (db db' : Db) :
    (book_appointment s c n db).1 = (book_appointment s c n db').1 := by
  rcases s with _ | ⟨_ | bd⟩ <;> cases c <;> rfl

/-- Upper-casing a lowercase hexadecimal digit yields an uppercase
hexadecimal digit. -/
theorem toUpper_lowerHex (c : Char) (h : c ∈ lowerHexChars) :
    Char.toUpper c ∈ upperHexChars := by
  fin_cases h <;> decide

/-- Splitting a list at the first element satisfying `p`:
`updateFirst` rewrites exactly that element. -/
theorem updateFirst_split (p : Appointment → Bool) (f : Appointment → Appointment)
    (l : List Appointment) (a : Appointment) (h : l.find? p = some a) :
    ∃ l1 l2, l = l1 ++ a :: l2 ∧ (∀ b ∈ l1, p b = false) ∧
      updateFirst p f l = l1 ++ f a :: l2 := by
  induction l with
  | nil => simp [List.find?] at h
  | cons x xs ih =>
    by_cases hx : p x
    · rw [List.find?_cons_of_pos _ hx, Option.some.injEq] at h
      subst h
      exact ⟨[], xs, rfl, by simp, by simp [updateFirst, hx]⟩
    · rw [List.find?_cons_of_neg _ hx] at h
      obtain ⟨l1, l2, hsplit, hfirst, hupd⟩ := ih h
      refine ⟨x :: l1, l2, by simp [hsplit], ?_, ?_⟩
      · intro b hb
        rcases List.mem_cons.mp hb with rfl | hb
        · simpa using hx
        · exact hfirst b hb
      · simp [updateFirst, hx, hupd]

/-- C1 (counterexample): on the empty store no occupying appointment of
doctor 7 overlaps the requested 09:00–09:30 slot, yet the booking route
fails with Conflict when the simulated draw is true; conversely, on a
store holding a `CONFIRMED` appointment of the same doctor covering
exactly 09:00–09:30 (the open/open test holds), the route confirms the
booking when the draw is false.  The claim's conflict-iff-overlap is
false in both directions. -/
theorem C1_counterexample :
    emptyDb.appointments = [] ∧
    (book_appointment (some sessionOK) true 1234 emptyDb).1 =
      BookResponse.conflict ∧
    occupying (⟨1, 1, none, 7, 1, 540, 30, "checkup", .CONFIRMED, none,
      "BK-00001"⟩ : Appointment) = true ∧
    intervalsOverlap 540 570 540 570 = true ∧
    (book_appointment (some sessionOK) false 5678 occupiedDb).1 =
      BookResponse.confirmed "APT-5678" := by
  refine ⟨rfl, rfl, rfl, by decide, rfl⟩

/-- C1 (amended): with booking data present, the route fails with
Conflict exactly when the simulated random draw is true — independently
of the store, which it neither reads (the response is the same against
any two stores) nor writes (no appointment is ever created). -/
theorem C1_conflict_signal_is_random (s : Option RedisSession) (coin : Bool)
    (n : Nat) (db db' : Db) :
    ((book_appointment s coin n db).1 = BookResponse.conflict ↔
      (hasBookingData s = true ∧ coin = true)) ∧
    (book_appointment s coin n db).2 = db ∧
    (book_appointment s coin n db).1 = (book_appointment s coin n db').1 := by
  refine ⟨?_, book_db_unchanged s coin n db, book_resp_db_indep s coin n db db'⟩
  rcases s with _ | ⟨_ | bd⟩ <;> cases coin <;>
    simp [book_appointment, hasBookingData]

/-- C2 (counterexample): the store `twoOverlapDb`, reached from the
empty store by two `create_appointment` calls, holds two `CONFIRMED`
appointments of doctor 7 with overlapping intervals — the invariant is
not preserved by the booking operations, because `create_appointment`
performs no conflict check. -/
theorem C2_counterexample :
    twoOverlapStore = some twoOverlapDb ∧
    ¬ ConflictFree twoOverlapDb.appointments := by
  exact ⟨by decide, by decide⟩

/-- C2 (amended): the booking-route handler itself preserves the
no-overlap invariant, but only vacuously: it never writes the
appointment store at all (the conflict outcome is simulated), while the
repository insert that the transaction would rely on checks nothing, as
the counterexample shows. -/
theorem C2_route_preserves_invariant (s : Option RedisSession) (coin : Bool)
    (n : Nat) (db : Db) (h : ConflictFree db.appointments) :
    ConflictFree (book_appointment s coin n db).2.appointments := by
  rw [book_db_unchanged]
  exact h

theorem C2_route_preserves_invariant_witness :
    ConflictFree emptyDb.appointments ∧
    ConflictFree (book_appointment none true 0 emptyDb).2.appointments :=
  ⟨by decide, C2_route_preserves_invariant none true 0 emptyDb (by decide)⟩

/-- C3 (counterexample): on the §8 Monday scenario the reference
algorithm yields exactly the two slots 09:00–09:30 and 09:30–10:00,
while `get_mock_availability` — the repository's slot generator —
returns its three hardcoded slot strings; the outputs differ already in
length, so the generator does not equal the reference algorithm. -/
theorem C3_counterexample :
    mondayScenarioSlots = [(540, 570), (570, 600)] ∧
    (get_mock_availability "ABC Hospital Downtown" "Cardiology" none).slots =
      ["2025-04-23T10:00:00", "2025-04-23T10:30:00", "2025-04-23T11:00:00"] ∧
    (get_mock_availability "ABC Hospital Downtown" "Cardiology"
      none).slots.length ≠ mondayScenarioSlots.length := by
  refine ⟨by decide, rfl, by decide⟩

/-- C3 (amended): the slot generator the repository actually exposes
returns the same three hardcoded slot strings for every input — it
consults no date range, no availability window and no existing
appointment; the reference algorithm of §4.1, stated separately, does
produce the expected 09:00–09:30 and 09:30–10:00 on the Monday
scenario, and produces no slot when a 09:15–09:45 appointment occupies
the window. -/
theorem C3_mock_generator_vs_reference (l s : String) (d : Option String) :
    (doctor_availability l s d).slots =
      ["2025-04-23T10:00:00", "2025-04-23T10:30:00", "2025-04-23T11:00:00"] ∧
    mondayScenarioSlots = [(540, 570), (570, 600)] ∧
    slotGeneratorSpec [0] [⟨0, 540, 600, true⟩] [(555, 585)] = [] := by
  exact ⟨rfl, by decide, by decide⟩

/-- C4 (counterexample): two sequential invocations of the booking
route for the same doctor and the same 09:00–09:30 slot, each with a
false simulated draw, both return a confirmation — and neither persists
an appointment.  "Exactly one succeeds and the other fails with
Conflict" is false; since the handler touches no shared state, the same
holds under any concurrent interleaving. -/
theorem C4_counterexample :
    (book_appointment (some sessionOK) false 1111 emptyDb).1 =
      BookResponse.confirmed "APT-1111" ∧
    (book_appointment (some sessionOK) false 2222
      (book_appointment (some sessionOK) false 1111 emptyDb).2).1 =
      BookResponse.confirmed "APT-2222" ∧
    (book_appointment (some sessionOK) false 2222
      (book_appointment (some sessionOK) false 1111 emptyDb).2).2 =
      emptyDb := by
  refine ⟨rfl, rfl, rfl⟩

/-- C4 (amended): a batch of booking-route invocations leaves the store
untouched, and each invocation's response is exactly what it would have
been against the initial store — the outcomes are mutually independent
simulated draws, with no per-doctor serialization and no persisted
appointment. -/
theorem C4_bookings_independent (s : Option RedisSession)
    (reqs : List (Bool × Nat)) (db : Db) :
    (runBookings s reqs db).2 = db ∧
    (runBookings s reqs db).1 =
      reqs.map fun p => (book_appointment s p.1 p.2 db).1 := by
  induction reqs generalizing db with
  | nil => exact ⟨rfl, rfl⟩
  | cons q rest ih =>
    obtain ⟨c, n⟩ := q
    have hdb := book_db_unchanged s c n db
    constructor
    · show (runBookings s rest (book_appointment s c n db).2).2 = db
      rw [hdb]
      exact (ih db).1
    · show (book_appointment s c n db).1 ::
        (runBookings s rest (book_appointment s c n db).2).1 = _
      rw [hdb, (ih db).2]
      simp

/-- The confirmation id `create_appointment` stores for `reqConfirmed1`
with uuid hex `hexA` on the empty store. -/
def c5StoredConfId : Option String :=
  (create_appointment reqConfirmed1 hexA emptyDb).map fun p =>
    p.1.confirmation_id

/-- C5 (counterexample): for a successful repository insert with no
client-supplied confirmation id, the generated identifier is
`"BK-01234"` — the `"BK-"` prefix is followed by exactly 5, not 8,
uppercase hexadecimal characters; and the live booking route's
identifier `"APT-1234"` does not even carry the `"BK-"` prefix. -/
theorem C5_counterexample :
    c5StoredConfId = some "BK-01234" ∧
    ("BK-01234".data.drop 3).length = 5 ∧
    ("BK-01234".data.drop 3).length ≠ 8 ∧
    (book_appointment (some sessionOK) false 1234 emptyDb).1 =
      BookResponse.confirmed "APT-1234" ∧
    "APT-1234".data.take 3 ≠ "BK-".data := by
  decide

/-- C5 (amended): when no confirmation id is supplied, the repository
generates `"BK-"` followed by exactly 5 uppercase hexadecimal
characters — the first five characters of the lowercase uuid hex
digest, upper-cased (the live route instead answers with an `"APT-"`
identifier and the seeding script with `"BK-"` plus a number of up to 5
digits). -/
theorem C5_confirmation_id_format (hex : String) (h5 : 5 ≤ hex.data.length)
    (hhex : ∀ c ∈ hex.data, c ∈ lowerHexChars) :
    (gen_confirmation_id hex).data.take 3 = "BK-".data ∧
    ((gen_confirmation_id hex).data.drop 3).length = 5 ∧
    (∀ c ∈ (gen_confirmation_id hex).data.drop 3, c ∈ upperHexChars) ∧
    ((gen_confirmation_id hex).data.drop 3).length ≠ 8 := by
  have hdata : (gen_confirmation_id hex).data =
      'B' :: 'K' :: '-' :: (hex.data.take 5).map Char.toUpper := rfl
  have hlen : ((gen_confirmation_id hex).data.drop 3).length = 5 := by
    rw [hdata]
    show ((hex.data.take 5).map Char.toUpper).length = 5
    rw [List.length_map, List.length_take]
    omega
  refine ⟨rfl, hlen, ?_, by omega⟩
  rw [hdata]
  intro c hc
  obtain ⟨d, hd, rfl⟩ := List.mem_map.mp hc
  exact toUpper_lowerHex d (hhex d (List.take_subset 5 hex.data hd))

theorem C5_confirmation_id_format_witness :
    5 ≤ hexA.data.length ∧
    ((gen_confirmation_id hexA).data.drop 3).length = 5 :=
  ⟨by decide,
   (C5_confirmation_id_format hexA (by decide) (by decide)).2.1⟩

/-- C6 (counterexample): a booking request that succeeds (the route
returns the confirmation message) persists nothing — the store is still
empty afterwards, so no Appointment with status `CONFIRMED` was
created; and a direct repository insert carrying the schema's default
status stores `REQUESTED`, not `CONFIRMED`. -/
theorem C6_counterexample :
    (book_appointment (some sessionOK) false 1234 emptyDb).1 =
      BookResponse.confirmed "APT-1234" ∧
    (book_appointment (some sessionOK) false 1234 emptyDb).2.appointments
      = [] ∧
    create_appointment reqDefault hexA emptyDb =
      some (reqDefaultRow, reqDefaultDb) ∧
    reqDefaultRow.status = AppointmentStatusEnum.REQUESTED ∧
    AppointmentStatusEnum.REQUESTED ≠ AppointmentStatusEnum.CONFIRMED := by
  decide

/-- C6 (amended): the booking route persists nothing on success or
failure (the store is returned unchanged), and when a row is created
through the repository its stored status is exactly the status named by
the request (the schema default being `"REQUESTED"`) — the transaction
never forces `CONFIRMED`. -/
theorem C6_booking_persists_nothing :
    (∀ (s : Option RedisSession) (coin : Bool) (n : Nat) (db : Db),
      (book_appointment s coin n db).2 = db) ∧
    (∀ (data : AppointmentCreate) (hex : String) (db1 : Db)
      (a : Appointment) (db2 : Db),
      create_appointment data hex db1 = some (a, db2) →
      AppointmentStatusEnum.ofName data.status = some a.status) := by
  constructor
  · exact book_db_unchanged
  · intro data hex db1 a db2 hres
    cases hofn : AppointmentStatusEnum.ofName data.status with
    | none => simp [create_appointment, hofn] at hres
    | some st =>
      simp only [create_appointment, hofn, Option.some.injEq,
        Prod.mk.injEq] at hres
      obtain ⟨ha, _⟩ := hres
      subst ha
      simp [hofn]

theorem C6_booking_persists_nothing_witness :
    create_appointment reqDefault hexA emptyDb =
      some (reqDefaultRow, reqDefaultDb) ∧
    AppointmentStatusEnum.ofName reqDefault.status =
      some reqDefaultRow.status :=
  ⟨by decide,
   C6_booking_persists_nothing.2 reqDefault hexA emptyDb reqDefaultRow
     reqDefaultDb (by decide)⟩

/-- C7: the availability handler is a pure function of its query
parameters — two invocations with identical inputs (and no state to
change in between: the handler reads none) return identical outputs. -/
theorem C7_slot_generator_deterministic (l1 s1 : String) (d1 : Option String)
    (l2 s2 : String) (d2 : Option String)
    (hl : l1 = l2) (hs : s1 = s2) (hd : d1 = d2) :
    doctor_availability l1 s1 d1 = doctor_availability l2 s2 d2 := by
  subst hl
  subst hs
  subst hd
  rfl

theorem C7_slot_generator_deterministic_witness :
    ("ABC Hospital Downtown" : String) = "ABC Hospital Downtown" ∧
    doctor_availability "ABC Hospital Downtown" "Cardiology" none =
      doctor_availability "ABC Hospital Downtown" "Cardiology" none :=
  ⟨rfl, C7_slot_generator_deterministic "ABC Hospital Downtown" "Cardiology"
    none "ABC Hospital Downtown" "Cardiology" none rfl rfl rfl⟩

/-- C8 (counterexample): a request whose booking data names a doctor
present in no store and carries an invalid interval (`slot_end <
slot_start`) is neither rejected with NotFound nor with a validation
error: with a false draw the route confirms it.  The only rejection the
route knows is the 400 for missing booking data. -/
theorem C8_counterexample :
    badBookingData.slot_end < badBookingData.slot_start ∧
    emptyDb.appointments = [] ∧
    (book_appointment (some ⟨some badBookingData⟩) false 4321 emptyDb).1 =
      BookResponse.confirmed "APT-4321" ∧
    (book_appointment (some ⟨some badBookingData⟩) false 4321 emptyDb).1 ≠
      BookResponse.badRequest := by
  decide

/-- C8 (amended): the route rejects with 400 exactly when the session
is missing or carries no booking data; past that guard the response is
decided solely by the simulated draw — no doctor lookup and no
timestamp validation occur — and no rejection or success path writes
the store. -/
theorem C8_route_rejects_only_missing_data (s : Option RedisSession)
    (coin : Bool) (n : Nat) (db : Db) :
    ((book_appointment s coin n db).1 = BookResponse.badRequest ↔
      hasBookingData s = false) ∧
    (book_appointment s coin n db).1 =
      (if hasBookingData s then
        (if coin then BookResponse.conflict
         else BookResponse.confirmed ("APT-" ++ toString n))
       else BookResponse.badRequest) ∧
    (book_appointment s coin n db).2 = db := by
  refine ⟨?_, ?_, book_db_unchanged s coin n db⟩ <;>
    rcases s with _ | ⟨_ | bd⟩ <;> cases coin <;>
      simp [book_appointment, hasBookingData]

/-- C9: the repository persists a non-empty client-supplied
confirmation id verbatim, and generates the uuid-derived identifier
exactly when the supplied one is absent or empty. -/
theorem C9_confirmation_id_passthrough (data : AppointmentCreate)
    (hex : String) (db : Db) (a : Appointment) (db2 : Db)
    (hres : create_appointment data hex db = some (a, db2)) :
    (∀ c, data.confirmation_id = some c → c ≠ "" →
      a.confirmation_id = c) ∧
    ((data.confirmation_id = none ∨ data.confirmation_id = some "") →
      a.confirmation_id = gen_confirmation_id hex) := by
  cases hofn : AppointmentStatusEnum.ofName data.status with
  | none => simp [create_appointment, hofn] at hres
  | some st =>
    simp only [create_appointment, hofn, Option.some.injEq,
      Prod.mk.injEq] at hres
    have hconf : a.confirmation_id =
        (if strTruthy data.confirmation_id then data.confirmation_id.getD ""
         else gen_confirmation_id hex) := by
      rw [← hres.1]
    constructor
    · intro c hc hne
      rw [hconf, hc]
      simp [strTruthy, hne]
    · intro hcase
      rcases hcase with hc | hc <;> rw [hconf, hc] <;> simp [strTruthy]

theorem C9_confirmation_id_passthrough_witness :
    create_appointment reqCustom hexA emptyDb =
      some (reqCustomRow, reqCustomDb) ∧
    reqCustomRow.confirmation_id = "CUSTOM-99" :=
  ⟨by decide,
   (C9_confirmation_id_passthrough reqCustom hexA emptyDb reqCustomRow
     reqCustomDb (by decide)).1 "CUSTOM-99" rfl (by decide)⟩

/-- A `CONFIRMED` appointment row of doctor 7 used to witness
cancellation. -/
def apptRow7 : Appointment :=
  ⟨1, 1, none, 7, 1, 540, 30, "checkup", .CONFIRMED, none, "BK-11111"⟩

/-- A store holding only `apptRow7`. -/
def oneRowDb : Db := ⟨[apptRow7], 2⟩

/-- C10: cancelling a missing id returns `None` and leaves the store
unchanged; cancelling an existing id returns the fetched row with
status `CANCELED`, every column except `status` and `notes` unchanged,
`notes` unchanged unless a truthy cancellation reason is supplied, in
which case the reason line is appended — and the store differs only in
that one row. -/
theorem C10_cancel_frame (db : Db) (i : Nat) (r : Option String) :
    ((∀ a ∈ db.appointments, (a.id == i) = false) →
      cancel_appointment i r db = (none, db)) ∧
    (∀ a, get_appointment_by_id db i = some a →
      ∃ l1 l2,
        db.appointments = l1 ++ a :: l2 ∧
        (∀ b ∈ l1, (b.id == i) = false) ∧
        (cancel_appointment i r db).1 = some (cancelRow r a) ∧
        (cancel_appointment i r db).2 =
          ⟨l1 ++ cancelRow r a :: l2, db.next_id⟩ ∧
        (cancelRow r a).status = AppointmentStatusEnum.CANCELED ∧
        (cancelRow r a).id = a.id ∧
        (cancelRow r a).user_id = a.user_id ∧
        (cancelRow r a).family_member_id = a.family_member_id ∧
        (cancelRow r a).doctor_id = a.doctor_id ∧
        (cancelRow r a).location_id = a.location_id ∧
        (cancelRow r a).date_time = a.date_time ∧
        (cancelRow r a).duration_minutes = a.duration_minutes ∧
        (cancelRow r a).reason = a.reason ∧
        (cancelRow r a).confirmation_id = a.confirmation_id ∧
        (strTruthy r = false → (cancelRow r a).notes = a.notes) ∧
        (∀ rs, r = some rs → rs ≠ "" →
          (cancelRow r a).notes =
            some ((a.notes.getD "") ++ "\nCancellation reason: " ++ rs))) := by
  constructor
  · intro h
    have hfind : db.appointments.find? (fun b => b.id == i) = none := by
      rw [List.find?_eq_none]
      intro b hb
      simp [h b hb]
    simp [cancel_appointment, get_appointment_by_id, hfind]
  · intro a ha
    obtain ⟨l1, l2, hsplit, hfirst, hupd⟩ :=
      updateFirst_split (fun b => b.id == i) (cancelRow r)
        db.appointments a ha
    refine ⟨l1, l2, hsplit, hfirst, ?_, ?_, rfl, rfl, rfl, rfl, rfl, rfl,
      rfl, rfl, rfl, rfl, ?_, ?_⟩
    · simp [cancel_appointment, get_appointment_by_id] at ha ⊢
      rw [ha]
    · simp [cancel_appointment, get_appointment_by_id] at ha ⊢
      rw [ha, hupd]
    · intro hr
      simp [cancelRow, hr]
    · intro rs hrs hne
      subst hrs
      simp [cancelRow, strTruthy, hne]

theorem C10_cancel_frame_witness :
    get_appointment_by_id oneRowDb 1 = some apptRow7 ∧
    (cancel_appointment 1 (some "patient request") oneRowDb).1 =
      some (cancelRow (some "patient request") apptRow7) := by
  refine ⟨by decide, ?_⟩
  obtain ⟨l1, l2, h1, h2, h3, hrest⟩ :=
    (C10_cancel_frame oneRowDb 1 (some "patient request")).2 apptRow7
      (by decide)
  exact h3

end SmartHead
